import Mathlib

/-!
Verification development for the Notification Service
(`src/NotificationService/app/main.py`).

This file gives a shallow embedding of the in-memory broker
(`ConnectionManager` with its `connect`, `disconnect` and `broadcast`
methods) and of the publish route `post_notification`, and proves the
behavioural properties stated in the specification about them.

Modelling conventions:
- A WebSocket handle is modelled as a natural number (`Socket`); the
  Python `set`/`dict` pair of the registry is modelled as a list of
  sockets plus an association list from sockets to subscriptions.
- Python truthiness of optional strings (`if user_filter:`,
  `if not msg_topic:`, `if payload.topic:`) is modelled by `truthy`,
  which is false exactly on `none` and `some ""`.
- The network is abstracted by a `fails : Socket → Bool` oracle
  describing which `send_text` calls raise; the asyncio lock makes the
  Python methods atomic, so they are modelled as pure state
  transformers.
- `uuid.uuid4()` and `datetime.now(timezone.utc)` are modelled as
  explicit parameters (`freshId`, `now`) of `post_notification`.
-/

namespace NotificationService

/-- A WebSocket handle, identified uniquely for the registry's lifetime. -/
abbrev Socket := Nat

/-- The subscription metadata stored per socket:
`self.subscriptions[websocket] = {"userId": user_id, "topic": topic}`. -/
structure Subscription where
  userId : Option String
  topic : Option String
deriving DecidableEq, Repr

/-- Python truthiness of an optional string: `None` and `""` are falsy. -/
def truthy : Option String → Bool
  | none => false
  | some s => s ≠ ""

/-- The broadcast message dictionary. `post_notification` builds it from
`notification.dict()` plus an optional top-level `"topic"` key; `data`
is modelled as an optional string-to-string association list (only its
`"topic"` key is ever read by the broker). -/
structure Message where
  id : String
  userId : Option String
  orderId : Option String
  type : String
  title : String
  body : Option String
  data : Option (List (String × String))
  read : Bool
  createdAt : Nat
  topic : Option String
deriving DecidableEq, Repr

/-- `(message.get("data") or {}).get("topic")`. -/
def dataGetTopic (msg : Message) : Option String :=
  ((msg.data.getD []).find? (fun p => p.1 = "topic")).map Prod.snd

/-- The resolved topic of a message, as computed inside `broadcast`:
`msg_topic = message.get("topic")`, and `if not msg_topic:` fall back to
`data.topic`. -/
def msgTopic (msg : Message) : Option String :=
  if truthy msg.topic then msg.topic else dataGetTopic msg

/-- `matches_user`: `True` unless `user_filter` is truthy, in which case
`message.get("userId") == user_filter`. -/
def matches_user (msg : Message) (user_filter : Option String) : Bool :=
  if truthy user_filter then msg.userId = user_filter else true

/-- `matches_topic`: `True` unless `topic_filter` is truthy, in which
case the resolved message topic must equal it. -/
def matches_topic (msg : Message) (topic_filter : Option String) : Bool :=
  if truthy topic_filter then msgTopic msg = topic_filter else true

/-- `matches_user and matches_topic` for one socket's stored filters. -/
def matchesFilters (msg : Message) (f : Subscription) : Bool :=
  matches_user msg f.userId && matches_topic msg f.topic

/-- The broker state: `self.active_connections : Set[WebSocket]` and
`self.subscriptions : Dict[WebSocket, ...]`. -/
structure ConnectionManager where
  active_connections : List Socket
  subscriptions : List (Socket × Subscription)
deriving DecidableEq, Repr

/-- `manager = ConnectionManager()`: both containers empty. -/
def ConnectionManager.init : ConnectionManager := ⟨[], []⟩

/-- Dictionary lookup `self.subscriptions.get(ws)` on the association
list. -/
def subsLookup (subs : List (Socket × Subscription)) (ws : Socket) :
    Option Subscription :=
  (subs.find? (fun p => p.1 = ws)).map Prod.snd

/-- Dictionary assignment `self.subscriptions[ws] = v`: overwrite in
place if the key exists, otherwise append. -/
def subsSet : List (Socket × Subscription) → Socket → Subscription →
    List (Socket × Subscription)
  | [], ws, v => [(ws, v)]
  | (k, w) :: rest, ws, v =>
      if k = ws then (ws, v) :: rest else (k, w) :: subsSet rest ws v

/-- `connect`: `self.active_connections.add(websocket)` (a set add, so
no duplicate membership) and
`self.subscriptions[websocket] = {"userId": user_id, "topic": topic}`. -/
def ConnectionManager.connect (m : ConnectionManager) (ws : Socket)
    (user_id topic : Option String) : ConnectionManager :=
  { active_connections :=
      if ws ∈ m.active_connections then m.active_connections
      else ws :: m.active_connections,
    subscriptions := subsSet m.subscriptions ws ⟨user_id, topic⟩ }

/-- `disconnect`: `self.active_connections.discard(websocket)` and
`self.subscriptions.pop(websocket, None)`. -/
def ConnectionManager.disconnect (m : ConnectionManager) (ws : Socket) :
    ConnectionManager :=
  { active_connections := m.active_connections.filter (fun s => s ≠ ws),
    subscriptions := m.subscriptions.filter (fun p => p.1 ≠ ws) }

/-- The filters used for a socket inside `broadcast`:
`filters = self.subscriptions.get(ws, {})`, whose `.get` fields default
to `None`. -/
def ConnectionManager.subOf (m : ConnectionManager) (ws : Socket) :
    Subscription :=
  (subsLookup m.subscriptions ws).getD ⟨none, none⟩

/-- The fan-out loop of `broadcast`: iterate over the active
connections in order; for each socket whose filters match, attempt
`ws.send_text(...)`; a raised exception (`fails ws`) appends the socket
to `to_remove`, a successful send delivers the message. Returns the
pair (successfully sent sockets, `to_remove`). -/
def ConnectionManager.broadcastPass (m : ConnectionManager) (msg : Message)
    (fails : Socket → Bool) : List Socket × List Socket :=
  m.active_connections.foldl
    (fun acc ws =>
      if matchesFilters msg (m.subOf ws) then
        if fails ws then (acc.1, acc.2 ++ [ws]) else (acc.1 ++ [ws], acc.2)
      else acc)
    ([], [])

/-- `broadcast`: run the fan-out loop, then remove every socket marked
in `to_remove` from both containers (the same discard/pop pair as
`disconnect`). -/
def ConnectionManager.broadcast (m : ConnectionManager) (msg : Message)
    (fails : Socket → Bool) : ConnectionManager :=
  (m.broadcastPass msg fails).2.foldl (fun st ws => st.disconnect ws) m

/-! ### Association-list and registry lemmas -/

theorem subsLookup_nil (s : Socket) : subsLookup [] s = none := rfl

theorem subsLookup_cons (k : Socket) (v : Subscription)
    (rest : List (Socket × Subscription)) (s : Socket) :
    subsLookup ((k, v) :: rest) s =
      if k = s then some v else subsLookup rest s := by
  by_cases h : k = s
  · simp [subsLookup, List.find?_cons_of_pos, h]
  · simp [subsLookup, List.find?_cons_of_neg, h]

theorem subsLookup_filter_ne (subs : List (Socket × Subscription))
    (ws s : Socket) :
    subsLookup (subs.filter (fun p => p.1 ≠ ws)) s =
      if s = ws then none else subsLookup subs s := by
  induction subs with
  | nil => simp [subsLookup_nil]
  | cons p rest ih =>
    obtain ⟨k, v⟩ := p
    simp only [ne_eq, decide_not] at ih ⊢
    by_cases hk : k = ws
    · subst hk
      by_cases hs : s = k
      · subst hs
        simp [List.filter_cons, subsLookup_cons, ih]
      · simp [List.filter_cons, subsLookup_cons, hs, Ne.symm hs, ih]
    · by_cases hs : k = s
      · subst hs
        simp [List.filter_cons, hk, subsLookup_cons, Ne.symm hk]
      · simp [List.filter_cons, hk, subsLookup_cons, hs, ih]

theorem subsLookup_subsSet_self (subs : List (Socket × Subscription))
    (ws : Socket) (v : Subscription) :
    subsLookup (subsSet subs ws v) ws = some v := by
  induction subs with
  | nil => simp [subsSet, subsLookup_cons]
  | cons p rest ih =>
    obtain ⟨k, w⟩ := p
    by_cases hk : k = ws
    · simp [subsSet, hk, subsLookup_cons]
    · simp [subsSet, hk, subsLookup_cons, ih]

theorem subsLookup_subsSet_ne (subs : List (Socket × Subscription))
    (ws : Socket) (v : Subscription) (s : Socket) (h : s ≠ ws) :
    subsLookup (subsSet subs ws v) s = subsLookup subs s := by
  induction subs with
  | nil => simp [subsSet, subsLookup_cons, Ne.symm h, subsLookup_nil]
  | cons p rest ih =>
    obtain ⟨k, w⟩ := p
    by_cases hk : k = ws
    · subst hk
      simp [subsSet, subsLookup_cons, Ne.symm h]
    · simp [subsSet, hk, subsLookup_cons, ih]

theorem mem_keys_subsSet (subs : List (Socket × Subscription))
    (ws : Socket) (v : Subscription) (s : Socket) :
    s ∈ (subsSet subs ws v).map Prod.fst ↔
      s = ws ∨ s ∈ subs.map Prod.fst := by
  induction subs with
  | nil => simp [subsSet]
  | cons p rest ih =>
    obtain ⟨k, w⟩ := p
    by_cases hk : k = ws
    · subst hk
      simp [subsSet]
      try tauto
    · simp [subsSet, hk, ih]
      try tauto

theorem nodup_keys_subsSet (subs : List (Socket × Subscription))
    (ws : Socket) (v : Subscription)
    (h : (subs.map Prod.fst).Nodup) :
    ((subsSet subs ws v).map Prod.fst).Nodup := by
  induction subs with
  | nil => simp [subsSet]
  | cons p rest ih =>
    obtain ⟨k, w⟩ := p
    simp only [List.map_cons, List.nodup_cons] at h
    by_cases hk : k = ws
    · subst hk
      simpa [subsSet] using h
    · rw [show subsSet ((k, w) :: rest) ws v = (k, w) :: subsSet rest ws v
        from by simp [subsSet, hk]]
      simp only [List.map_cons, List.nodup_cons]
      refine ⟨?_, ih h.2⟩
      rw [mem_keys_subsSet]
      push_neg
      exact ⟨hk, h.1⟩

/-! ### The fan-out loop -/

theorem foldlPass_eq (c d : Socket → Bool) (l : List Socket)
    (a b : List Socket) :
    l.foldl
      (fun acc ws =>
        if c ws then
          if d ws then (acc.1, acc.2 ++ [ws]) else (acc.1 ++ [ws], acc.2)
        else acc)
      (a, b) =
      (a ++ l.filter (fun ws => c ws && !d ws),
       b ++ l.filter (fun ws => c ws && d ws)) := by
  induction l generalizing a b with
  | nil => simp
  | cons x xs ih =>
    by_cases hc : c x = true
    · by_cases hd : d x = true
      · simp [List.foldl_cons, List.filter_cons, hc, hd, ih]
      · simp [List.foldl_cons, List.filter_cons, hc, hd, ih]
    · simp [List.foldl_cons, List.filter_cons, hc, ih]

/-- The fan-out loop computes exactly the matching-and-healthy sockets
(sent) and the matching-and-broken sockets (`to_remove`), in registry
order. -/
theorem broadcastPass_eq (m : ConnectionManager) (msg : Message)
    (fails : Socket → Bool) :
    m.broadcastPass msg fails =
      (m.active_connections.filter
        (fun ws => matchesFilters msg (m.subOf ws) && !fails ws),
       m.active_connections.filter
        (fun ws => matchesFilters msg (m.subOf ws) && fails ws)) := by
  unfold ConnectionManager.broadcastPass
  simpa using
    foldlPass_eq (fun ws => matchesFilters msg (m.subOf ws)) fails
      m.active_connections [] []

/-! ### The removal pass -/

theorem foldDisc_active (R : List Socket) (m : ConnectionManager) :
    (R.foldl (fun st ws => st.disconnect ws) m).active_connections =
      m.active_connections.filter (fun s => decide (s ∉ R)) := by
  induction R generalizing m with
  | nil => simp
  | cons x xs ih =>
    rw [List.foldl_cons, ih]
    simp only [ConnectionManager.disconnect, List.filter_filter]
    refine List.filter_congr (fun a _ => ?_)
    by_cases hx : a = x <;> by_cases hxs : a ∈ xs <;>
      simp [hx, hxs]

theorem foldDisc_subs (R : List Socket) (m : ConnectionManager) :
    (R.foldl (fun st ws => st.disconnect ws) m).subscriptions =
      m.subscriptions.filter (fun p => decide (p.1 ∉ R)) := by
  induction R generalizing m with
  | nil => simp
  | cons x xs ih =>
    rw [List.foldl_cons, ih]
    simp only [ConnectionManager.disconnect, List.filter_filter]
    refine List.filter_congr (fun a _ => ?_)
    by_cases hx : a.1 = x <;> by_cases hxs : a.1 ∈ xs <;>
      simp [hx, hxs]

theorem subsLookup_filter_not_mem (subs : List (Socket × Subscription))
    (R : List Socket) (s : Socket) :
    subsLookup (subs.filter (fun p => decide (p.1 ∉ R))) s =
      if s ∈ R then none else subsLookup subs s := by
  induction subs with
  | nil => simp [subsLookup_nil]
  | cons p rest ih =>
    obtain ⟨k, v⟩ := p
    simp only [decide_not] at ih ⊢
    by_cases hkR : k ∈ R
    · by_cases hks : k = s
      · subst hks
        simp [List.filter_cons, hkR, ih, subsLookup_cons]
      · simp [List.filter_cons, hkR, ih, subsLookup_cons, hks]
    · by_cases hks : k = s
      · subst hks
        simp [List.filter_cons, hkR, subsLookup_cons]
      · simp [List.filter_cons, hkR, ih, subsLookup_cons, hks]

/-! ### Spec-side match predicate

`specMatch` transcribes the specification's match predicate literally
("absent" read as the filter being `none`); `specMatchAmended` is the
corrected reading in which an absent-or-empty filter is a wildcard and
an empty top-level topic falls through to `data.topic`, matching the
code's truthiness tests. -/

/-- Spec wording, literal: the resolved topic is the envelope's
top-level topic if present, else `data.topic` if present, else absent. -/
def specResolvedTopic (msg : Message) : Option String :=
  match msg.topic with
  | some t => some t
  | none => dataGetTopic msg

/-- Spec wording, literal: `matchesUser AND matchesTopic` with "absent"
meaning the filter is `none`. -/
def specMatch (msg : Message) (f : Subscription) : Prop :=
  (f.userId = none ∨ msg.userId = f.userId) ∧
  (f.topic = none ∨ specResolvedTopic msg = f.topic)

instance (msg : Message) (f : Subscription) : Decidable (specMatch msg f) := by
  unfold specMatch
  infer_instance

/-- Amended resolved topic: the top-level topic counts only when it is
present and nonempty; otherwise `data.topic`. -/
def specResolvedTopicAmended (msg : Message) : Option String :=
  match msg.topic with
  | some t => if t = "" then dataGetTopic msg else some t
  | none => dataGetTopic msg

/-- Amended match predicate: a filter that is absent or the empty
string is a wildcard on its dimension. -/
def specMatchAmended (msg : Message) (f : Subscription) : Prop :=
  (f.userId = none ∨ f.userId = some "" ∨ msg.userId = f.userId) ∧
  (f.topic = none ∨ f.topic = some "" ∨ specResolvedTopicAmended msg = f.topic)

instance (msg : Message) (f : Subscription) : Decidable (specMatchAmended msg f) := by
  unfold specMatchAmended
  infer_instance

theorem matches_user_iff (msg : Message) (u : Option String) :
    matches_user msg u = true ↔
      (u = none ∨ u = some "" ∨ msg.userId = u) := by
  rcases u with _ | s
  · simp [matches_user, truthy]
  · by_cases hs : s = ""
    · subst hs
      simp [matches_user, truthy]
    · simp [matches_user, truthy, hs]

theorem msgTopic_eq_specAmended (msg : Message) :
    msgTopic msg = specResolvedTopicAmended msg := by
  rcases htop : msg.topic with _ | t
  · simp [msgTopic, truthy, specResolvedTopicAmended, htop]
  · by_cases ht : t = "" <;>
      simp [msgTopic, truthy, specResolvedTopicAmended, htop, ht]

theorem matches_topic_iff (msg : Message) (t : Option String) :
    matches_topic msg t = true ↔
      (t = none ∨ t = some "" ∨ specResolvedTopicAmended msg = t) := by
  rcases t with _ | s
  · simp [matches_topic, truthy]
  · by_cases hs : s = ""
    · subst hs
      simp [matches_topic, truthy]
    · simp [matches_topic, truthy, hs, msgTopic_eq_specAmended]

theorem matchesFilters_iff_specAmended (msg : Message) (f : Subscription) :
    matchesFilters msg f = true ↔ specMatchAmended msg f := by
  simp [matchesFilters, Bool.and_eq_true, matches_user_iff,
    matches_topic_iff, specMatchAmended]

/-! ### Claim C1: the broadcast match predicate -/

/-- C1 (counterexample to the claim as stated): the subscription with
`userIdFilter = ""` does not satisfy the spec's literal predicate for a
message targeting user `"alice"` (the filter is present and differs
from the envelope's userId), yet `broadcast` sends the message to that
subscriber, because the code treats a falsy filter as absent. -/
theorem matchPredicate_claim_cex :
    0 ∈ ((ConnectionManager.init.connect 0 (some "") none).broadcastPass
        ⟨"n1", some "alice", none, "system", "hi", none, none, false, 0, none⟩
        (fun _ => false)).1 ∧
    ¬ specMatch
        ⟨"n1", some "alice", none, "system", "hi", none, none, false, 0, none⟩
        ⟨some "", none⟩ := by
  constructor
  · decide
  · decide

/-- C1 (amended): the broadcast match predicate is a pure function of
the envelope and one Subscription: a subscription matches iff
(userIdFilter is absent or empty OR envelope.userId == userIdFilter)
AND (topicFilter is absent or empty OR resolvedTopic == topicFilter),
where resolvedTopic is the top-level topic if present and nonempty,
else `data.topic` if present, else absent; and Broadcast attempts a
send to exactly the live registry entries whose stored Subscription
satisfies this predicate. -/
theorem matchPredicate_correct (msg : Message) (f : Subscription)
    (m : ConnectionManager) (fails : Socket → Bool) (ws : Socket) :
    (matchesFilters msg f = true ↔ specMatchAmended msg f) ∧
    ((ws ∈ (m.broadcastPass msg fails).1 ∨
        ws ∈ (m.broadcastPass msg fails).2) ↔
      ws ∈ m.active_connections ∧ specMatchAmended msg (m.subOf ws)) := by
  constructor
  · exact matchesFilters_iff_specAmended msg f
  · rw [broadcastPass_eq]
    simp only [List.mem_filter, ← matchesFilters_iff_specAmended,
      Bool.and_eq_true, Bool.not_eq_true']
    by_cases hf : fails ws = true <;> simp [hf]

/-! ### Claim C2: userId-filtered subscribers -/

/-- C2 (counterexample to the claim as stated): first, a subscriber
whose `userIdFilter` is the empty string receives a message whose
userId is `"x" ≠ ""` (empty filters are wildcards); second, a
subscriber with `userIdFilter = "u"` and `topicFilter = "t"` does not
receive a topicless message with matching userId `"u"`, so reception is
not equivalent to the userId condition alone. -/
theorem userIdFilter_claim_cex :
    (0 ∈ ((ConnectionManager.init.connect 0 (some "") none).broadcastPass
        ⟨"n1", some "x", none, "system", "hi", none, none, false, 0, none⟩
        (fun _ => false)).1 ∧
      (⟨"n1", some "x", none, "system", "hi", none, none, false, 0,
          none⟩ : Message).userId ≠ some "") ∧
    (0 ∉ ((ConnectionManager.init.connect 0 (some "u") (some "t")).broadcastPass
        ⟨"n2", some "u", none, "system", "hi", none, none, false, 0, none⟩
        (fun _ => false)).1 ∧
      (⟨"n2", some "u", none, "system", "hi", none, none, false, 0,
          none⟩ : Message).userId = some "u") := by
  refine ⟨⟨?_, ?_⟩, ?_, ?_⟩ <;> decide

/-- C2 (amended): for every envelope and every registered, healthy
subscriber whose userIdFilter is a nonempty string U and whose
topicFilter is absent or empty, the subscriber receives the envelope
from Broadcast iff envelope.userId == U. -/
theorem userIdFilter_receive_iff (m : ConnectionManager) (msg : Message)
    (fails : Socket → Bool) (ws : Socket) (U : String) (tf : Option String)
    (hU : U ≠ "")
    (hsub : subsLookup m.subscriptions ws = some ⟨some U, tf⟩)
    (htf : truthy tf = false)
    (hws : ws ∈ m.active_connections)
    (hf : fails ws = false) :
    ws ∈ (m.broadcastPass msg fails).1 ↔ msg.userId = some U := by
  rw [broadcastPass_eq]
  have h1 : matches_topic msg tf = true := by simp [matches_topic, htf]
  have h2 : truthy (some U) = true := by simp [truthy, hU]
  simp [List.mem_filter, hws, ConnectionManager.subOf, hsub,
    matchesFilters, matches_user, h1, h2, hf]

/-- C2 witness: a subscriber registered with `userIdFilter = "u1"` and
no topic filter receives exactly the messages addressed to `"u1"`. -/
theorem userIdFilter_receive_iff_witness :
    0 ∈ ((ConnectionManager.init.connect 0 (some "u1") none).broadcastPass
        ⟨"n1", some "u1", none, "system", "hi", none, none, false, 0, none⟩
        (fun _ => false)).1 ↔
      (⟨"n1", some "u1", none, "system", "hi", none, none, false, 0,
          none⟩ : Message).userId = some "u1" := by
  exact userIdFilter_receive_iff
    (ConnectionManager.init.connect 0 (some "u1") none)
    ⟨"n1", some "u1", none, "system", "hi", none, none, false, 0, none⟩
    (fun _ => false) 0 "u1" none (by decide) (by decide) (by decide)
    (by decide) (by decide)

/-! ### Claim C3: topic-filtered subscribers -/

/-- C3 (counterexample to the claim as stated): first, a subscriber
whose `topicFilter` is the empty string receives a message whose
resolved topic is `"x" ≠ ""` (empty filters are wildcards); second, for
a message whose top-level topic is the empty string with
`data.topic = "t"`, the spec's literal resolved topic is `""`, yet a
subscriber filtering on `"t"` receives it, because the code lets a
falsy top-level topic fall through to `data.topic`. -/
theorem topicFilter_claim_cex :
    (0 ∈ ((ConnectionManager.init.connect 0 none (some "")).broadcastPass
        ⟨"n1", none, none, "system", "hi", none, none, false, 0, some "x"⟩
        (fun _ => false)).1 ∧
      specResolvedTopic
        ⟨"n1", none, none, "system", "hi", none, none, false, 0,
          some "x"⟩ ≠ some "") ∧
    (1 ∈ ((ConnectionManager.init.connect 1 none (some "t")).broadcastPass
        ⟨"n2", none, none, "system", "hi", none,
          some [("topic", "t")], false, 0, some ""⟩
        (fun _ => false)).1 ∧
      specResolvedTopic
        ⟨"n2", none, none, "system", "hi", none,
          some [("topic", "t")], false, 0, some ""⟩ ≠ some "t") := by
  refine ⟨⟨?_, ?_⟩, ?_, ?_⟩ <;> decide

/-- C3 (amended): for every envelope and every registered, healthy
subscriber whose topicFilter is a nonempty string T and whose
userIdFilter is absent or empty, the subscriber receives the envelope
from Broadcast iff the resolved topic (top-level topic if present and
nonempty, else data.topic) equals T. -/
theorem topicFilter_receive_iff (m : ConnectionManager) (msg : Message)
    (fails : Socket → Bool) (ws : Socket) (T : String) (uf : Option String)
    (hT : T ≠ "")
    (hsub : subsLookup m.subscriptions ws = some ⟨uf, some T⟩)
    (huf : truthy uf = false)
    (hws : ws ∈ m.active_connections)
    (hf : fails ws = false) :
    ws ∈ (m.broadcastPass msg fails).1 ↔
      specResolvedTopicAmended msg = some T := by
  rw [broadcastPass_eq]
  have h1 : matches_user msg uf = true := by simp [matches_user, huf]
  have h2 : truthy (some T) = true := by simp [truthy, hT]
  simp [List.mem_filter, hws, ConnectionManager.subOf, hsub,
    matchesFilters, matches_topic, h1, h2, hf, msgTopic_eq_specAmended]

/-- C3 witness: a subscriber registered with `topicFilter = "orders"`
receives exactly the messages whose resolved topic is `"orders"`. -/
theorem topicFilter_receive_iff_witness :
    2 ∈ ((ConnectionManager.init.connect 2 none (some "orders")).broadcastPass
        ⟨"n1", none, none, "order_update", "x", none,
          some [("topic", "orders")], false, 0, none⟩
        (fun _ => false)).1 ↔
      specResolvedTopicAmended
        ⟨"n1", none, none, "order_update", "x", none,
          some [("topic", "orders")], false, 0, none⟩ = some "orders" := by
  exact topicFilter_receive_iff
    (ConnectionManager.init.connect 2 none (some "orders"))
    ⟨"n1", none, none, "order_update", "x", none,
      some [("topic", "orders")], false, 0, none⟩
    (fun _ => false) 2 "orders" none (by decide) (by decide) (by decide)
    (by decide) (by decide)

/-! ### Claim C4: broadcast frame effect -/

/-- C4: after Broadcast, every stream whose send was attempted and
failed (the `to_remove` list) is absent from both the live set and the
filters map; every other stream keeps its registry entry (membership
and stored Subscription) unchanged; and the live set shrinks by exactly
the number of failed sends. -/
theorem broadcast_frame (m : ConnectionManager) (msg : Message)
    (fails : Socket → Bool) :
    ((m.broadcast msg fails).active_connections.length +
        ((m.broadcastPass msg fails).2).length =
      m.active_connections.length) ∧
    (∀ ws ∈ (m.broadcastPass msg fails).2,
        ws ∉ (m.broadcast msg fails).active_connections ∧
        subsLookup (m.broadcast msg fails).subscriptions ws = none) ∧
    (∀ ws ∈ m.active_connections, ws ∉ (m.broadcastPass msg fails).2 →
        ws ∈ (m.broadcast msg fails).active_connections) ∧
    (∀ ws, ws ∉ (m.broadcastPass msg fails).2 →
        subsLookup (m.broadcast msg fails).subscriptions ws =
          subsLookup m.subscriptions ws) := by
  have hact : (m.broadcast msg fails).active_connections =
      m.active_connections.filter
        (fun s => decide (s ∉ (m.broadcastPass msg fails).2)) :=
    foldDisc_active (m.broadcastPass msg fails).2 m
  have hsubs : (m.broadcast msg fails).subscriptions =
      m.subscriptions.filter
        (fun p => decide (p.1 ∉ (m.broadcastPass msg fails).2)) :=
    foldDisc_subs (m.broadcastPass msg fails).2 m
  refine ⟨?_, ?_, ?_, ?_⟩
  · rw [hact]
    have hR : (m.broadcastPass msg fails).2 =
        m.active_connections.filter
          (fun ws => matchesFilters msg (m.subOf ws) && fails ws) := by
      rw [broadcastPass_eq]
    have hcongr : m.active_connections.filter
        (fun s => decide (s ∉ (m.broadcastPass msg fails).2)) =
        m.active_connections.filter
          (fun ws => !(matchesFilters msg (m.subOf ws) && fails ws)) := by
      refine List.filter_congr (fun a ha => ?_)
      rw [hR]
      simp [List.mem_filter, ha]
    rw [hcongr, hR, Nat.add_comm]
    exact (List.length_eq_length_filter_add
      (fun ws => matchesFilters msg (m.subOf ws) && fails ws)).symm
  · intro ws hws
    constructor
    · rw [hact]
      simp [List.mem_filter, hws]
    · rw [hsubs, subsLookup_filter_not_mem, if_pos hws]
  · intro ws hm hnr
    rw [hact]
    simp [List.mem_filter, hm, hnr]
  · intro ws hnr
    rw [hsubs, subsLookup_filter_not_mem, if_neg hnr]

/-- C4 witness: with sockets 4 and 5 registered (both unfiltered) and
the send to socket 4 failing, the broadcast removes exactly socket 4
and keeps socket 5 with its subscription. -/
theorem broadcast_frame_witness :
    (((ConnectionManager.init.connect 4 none none).connect 5 none
        none).broadcast
        ⟨"n1", none, none, "system", "hi", none, none, false, 0, none⟩
        (fun ws => decide (ws = 4))).active_connections.length +
      ((((ConnectionManager.init.connect 4 none none).connect 5 none
        none).broadcastPass
        ⟨"n1", none, none, "system", "hi", none, none, false, 0, none⟩
        (fun ws => decide (ws = 4))).2).length =
      ((ConnectionManager.init.connect 4 none none).connect 5 none
        none).active_connections.length ∧
    4 ∉ (((ConnectionManager.init.connect 4 none none).connect 5 none
        none).broadcast
        ⟨"n1", none, none, "system", "hi", none, none, false, 0, none⟩
        (fun ws => decide (ws = 4))).active_connections ∧
    5 ∈ (((ConnectionManager.init.connect 4 none none).connect 5 none
        none).broadcast
        ⟨"n1", none, none, "system", "hi", none, none, false, 0, none⟩
        (fun ws => decide (ws = 4))).active_connections := by
  have h := broadcast_frame
    ((ConnectionManager.init.connect 4 none none).connect 5 none none)
    ⟨"n1", none, none, "system", "hi", none, none, false, 0, none⟩
    (fun ws => decide (ws = 4))
  exact ⟨h.1, (h.2.1 4 (by decide)).1, h.2.2.1 5 (by decide) (by decide)⟩

/-! ### Claim C5: live set and filters map stay in sync -/

/-- The registry synchronisation invariant: the live set and the
filters map have exactly the same keys (each live socket has exactly
one stored Subscription and vice versa); sets and dict key views are
duplicate-free. -/
def RegistryInv (m : ConnectionManager) : Prop :=
  (∀ s : Socket, s ∈ m.active_connections ↔
      s ∈ m.subscriptions.map Prod.fst) ∧
  m.active_connections.Nodup ∧ (m.subscriptions.map Prod.fst).Nodup

theorem mem_keys_filter_ne (subs : List (Socket × Subscription))
    (ws s : Socket) :
    s ∈ (subs.filter (fun p => p.1 ≠ ws)).map Prod.fst ↔
      s ∈ subs.map Prod.fst ∧ s ≠ ws := by
  simp only [List.mem_map, List.mem_filter]
  constructor
  · rintro ⟨p, ⟨hp, hne⟩, rfl⟩
    simp only [ne_eq, decide_not, Bool.not_eq_eq_eq_not, Bool.not_true,
      decide_eq_false_iff_not] at hne
    exact ⟨⟨p, hp, rfl⟩, hne⟩
  · rintro ⟨⟨p, hp, rfl⟩, hne⟩
    exact ⟨p, ⟨hp, by simpa using hne⟩, rfl⟩

theorem registryInv_init : RegistryInv ConnectionManager.init := by
  refine ⟨fun s => ?_, ?_, ?_⟩ <;> simp [ConnectionManager.init]

theorem registryInv_connect (m : ConnectionManager) (ws : Socket)
    (u t : Option String) (h : RegistryInv m) :
    RegistryInv (m.connect ws u t) := by
  obtain ⟨hmem, hnd, hknd⟩ := h
  refine ⟨fun s => ?_, ?_, nodup_keys_subsSet _ _ _ hknd⟩
  · simp only [ConnectionManager.connect, mem_keys_subsSet]
    by_cases hin : ws ∈ m.active_connections
    · simp only [if_pos hin]
      constructor
      · intro hs
        exact Or.inr ((hmem s).mp hs)
      · rintro (rfl | hs)
        · exact hin
        · exact (hmem s).mpr hs
    · simp only [if_neg hin, List.mem_cons]
      rw [hmem s]
  · simp only [ConnectionManager.connect]
    by_cases hin : ws ∈ m.active_connections
    · simpa [if_pos hin] using hnd
    · simpa [if_neg hin] using ⟨hin, hnd⟩

theorem registryInv_disconnect (m : ConnectionManager) (ws : Socket)
    (h : RegistryInv m) : RegistryInv (m.disconnect ws) := by
  obtain ⟨hmem, hnd, hknd⟩ := h
  refine ⟨fun s => ?_, ?_, ?_⟩
  · simp only [ConnectionManager.disconnect, mem_keys_filter_ne,
      List.mem_filter]
    rw [hmem s]
    simp
  · exact List.Nodup.filter _ hnd
  · exact List.Nodup.sublist
      (List.Sublist.map Prod.fst (List.filter_sublist _)) hknd

theorem registryInv_foldDisc (R : List Socket) (m : ConnectionManager)
    (h : RegistryInv m) :
    RegistryInv (R.foldl (fun st ws => st.disconnect ws) m) := by
  induction R generalizing m with
  | nil => exact h
  | cons x xs ih =>
    rw [List.foldl_cons]
    exact ih _ (registryInv_disconnect m x h)

theorem registryInv_broadcast (m : ConnectionManager) (msg : Message)
    (fails : Socket → Bool) (h : RegistryInv m) :
    RegistryInv (m.broadcast msg fails) :=
  registryInv_foldDisc _ m h

/-- C5: the synchronisation invariant (live set and filters map have
exactly the same keys, with exactly one Subscription per live socket)
holds for the initial registry and is preserved by every connect,
disconnect and broadcast. -/
theorem registry_inv_preserved :
    RegistryInv ConnectionManager.init ∧
    (∀ (m : ConnectionManager) (ws : Socket) (u t : Option String),
        RegistryInv m → RegistryInv (m.connect ws u t)) ∧
    (∀ (m : ConnectionManager) (ws : Socket),
        RegistryInv m → RegistryInv (m.disconnect ws)) ∧
    (∀ (m : ConnectionManager) (msg : Message) (fails : Socket → Bool),
        RegistryInv m → RegistryInv (m.broadcast msg fails)) :=
  ⟨registryInv_init, registryInv_connect, registryInv_disconnect,
    registryInv_broadcast⟩

/-- C5 witness: the invariant holds after a concrete
connect-connect-broadcast-disconnect sequence starting from the empty
registry. -/
theorem registry_inv_preserved_witness :
    RegistryInv ((((ConnectionManager.init.connect 0 (some "u1")
        none).connect 1 none none).broadcast
        ⟨"n1", some "u1", none, "system", "hi", none, none, false, 0, none⟩
        (fun ws => decide (ws = 1))).disconnect 0) := by
  have h := registry_inv_preserved
  exact h.2.2.1 _ 0
    (h.2.2.2 _ _ _
      (h.2.1 _ 1 none none
        (h.2.1 ConnectionManager.init 0 (some "u1") none h.1)))

/-! ### Claim C6: best-effort, at-most-once delivery -/

/-- C6: per-recipient send failures are contained: whether one
recipient's send fails has no effect on which other recipients are
delivered to in the same Broadcast call (the exception is caught and
the loop continues), and each live recipient is delivered to at most
once per call; `broadcast` itself is a total function that reports no
delivery outcome. -/
theorem broadcast_failure_isolated (m : ConnectionManager) (msg : Message)
    (fails fails' : Socket → Bool) (w ws : Socket)
    (hagree : ∀ x, x ≠ w → fails x = fails' x) (hws : ws ≠ w)
    (hnd : m.active_connections.Nodup) :
    (ws ∈ (m.broadcastPass msg fails).1 ↔
        ws ∈ (m.broadcastPass msg fails').1) ∧
    ((m.broadcastPass msg fails).1).count ws ≤ 1 := by
  constructor
  · rw [broadcastPass_eq, broadcastPass_eq]
    simp [List.mem_filter, hagree ws hws]
  · rw [broadcastPass_eq]
    calc ((m.active_connections.filter
          (fun x => matchesFilters msg (m.subOf x) && !fails x)).count ws)
        ≤ m.active_connections.count ws :=
          (List.filter_sublist _).count_le ws
      _ ≤ 1 := List.nodup_iff_count_le_one.mp hnd ws

/-- C6 witness: with sockets 0 and 1 registered, socket 1 is delivered
to exactly the same way whether or not the send to socket 0 fails, and
it is delivered to at most once. -/
theorem broadcast_failure_isolated_witness :
    (1 ∈ (((ConnectionManager.init.connect 0 none none).connect 1 none
          none).broadcastPass
        ⟨"n1", none, none, "system", "hi", none, none, false, 0, none⟩
        (fun ws => decide (ws = 0))).1 ↔
      1 ∈ (((ConnectionManager.init.connect 0 none none).connect 1 none
          none).broadcastPass
        ⟨"n1", none, none, "system", "hi", none, none, false, 0, none⟩
        (fun _ => false)).1) ∧
    ((((ConnectionManager.init.connect 0 none none).connect 1 none
          none).broadcastPass
        ⟨"n1", none, none, "system", "hi", none, none, false, 0, none⟩
        (fun ws => decide (ws = 0))).1).count 1 ≤ 1 := by
  exact broadcast_failure_isolated
    ((ConnectionManager.init.connect 0 none none).connect 1 none none)
    ⟨"n1", none, none, "system", "hi", none, none, false, 0, none⟩
    (fun ws => decide (ws = 0)) (fun _ => false) 0 1
    (by intro x hx; simp [decide_eq_false hx]) (by decide) (by decide)

/-! ### Claim C7: disconnect is idempotent -/

/-- C7: Disconnect is idempotent: disconnecting twice equals
disconnecting once, and disconnecting a stream that is not registered
(absent from the live set with no stored Subscription) leaves the
registry exactly unchanged; no error case exists. -/
theorem disconnect_idempotent (m : ConnectionManager) (ws : Socket) :
    (m.disconnect ws).disconnect ws = m.disconnect ws ∧
    (ws ∉ m.active_connections →
      subsLookup m.subscriptions ws = none → m.disconnect ws = m) := by
  constructor
  · simp [ConnectionManager.disconnect, List.filter_filter]
  · intro hact hsub
    have h1 : m.active_connections.filter (fun s => !decide (s = ws)) =
        m.active_connections := by
      refine List.filter_eq_self.mpr (fun a ha => ?_)
      simp only [Bool.not_eq_true', decide_eq_false_iff_not]
      rintro rfl
      exact hact ha
    have hfind : m.subscriptions.find? (fun p => p.1 = ws) = none := by
      have hm := hsub
      unfold subsLookup at hm
      exact Option.map_eq_none'.mp hm
    have h2 : m.subscriptions.filter (fun p => !decide (p.1 = ws)) =
        m.subscriptions := by
      refine List.filter_eq_self.mpr (fun p hp => ?_)
      have hne := List.find?_eq_none.mp hfind p hp
      simpa using hne
    simp only [ConnectionManager.disconnect, ne_eq, decide_not]
    rw [h1, h2]

/-- C7 witness: with only socket 0 registered, disconnecting socket 1
twice equals disconnecting it once, and disconnecting the unregistered
socket 1 leaves the registry unchanged. -/
theorem disconnect_idempotent_witness :
    ((ConnectionManager.init.connect 0 (some "u1")
          none).disconnect 1).disconnect 1 =
      (ConnectionManager.init.connect 0 (some "u1") none).disconnect 1 ∧
    (ConnectionManager.init.connect 0 (some "u1") none).disconnect 1 =
      ConnectionManager.init.connect 0 (some "u1") none := by
  have h := disconnect_idempotent
    (ConnectionManager.init.connect 0 (some "u1") none) 1
  exact ⟨h.1, h.2 (by decide) (by decide)⟩

/-! ### Claim C8: connect tolerates re-registration -/

theorem connect_active_nodup (m : ConnectionManager) (ws : Socket)
    (u t : Option String) (h : m.active_connections.Nodup) :
    (m.connect ws u t).active_connections.Nodup := by
  simp only [ConnectionManager.connect]
  by_cases hin : ws ∈ m.active_connections
  · simpa [if_pos hin] using h
  · simpa [if_neg hin] using ⟨hin, h⟩

theorem connect_count_one (m : ConnectionManager) (ws : Socket)
    (u t : Option String) (h : m.active_connections.Nodup) :
    (m.connect ws u t).active_connections.count ws = 1 := by
  simp only [ConnectionManager.connect]
  by_cases hin : ws ∈ m.active_connections
  · rw [if_pos hin]
    exact List.count_eq_one_of_mem h hin
  · rw [if_neg hin, List.count_cons_self,
      List.count_eq_zero.mpr hin]

/-- C8: connecting an already-registered stream is tolerated
defensively: after Connect(stream, f1) then Connect(stream, f2), the
stream is present exactly once in the live set and its stored
Subscription is f2 (the filter is overwritten, membership is not
duplicated). -/
theorem connect_overwrite (m : ConnectionManager) (ws : Socket)
    (u1 t1 u2 t2 : Option String) (h : m.active_connections.Nodup) :
    ((m.connect ws u1 t1).connect ws u2 t2).active_connections.count ws
        = 1 ∧
    subsLookup ((m.connect ws u1 t1).connect ws u2 t2).subscriptions ws
        = some ⟨u2, t2⟩ := by
  refine ⟨connect_count_one _ ws u2 t2 (connect_active_nodup m ws u1 t1 h),
    ?_⟩
  simp only [ConnectionManager.connect]
  exact subsLookup_subsSet_self _ ws ⟨u2, t2⟩

/-- C8 witness: connecting socket 0 twice with different filters leaves
it registered once, with the second filter pair stored. -/
theorem connect_overwrite_witness :
    ((ConnectionManager.init.connect 0 (some "u1") none).connect 0
        (some "u2") (some "t2")).active_connections.count 0 = 1 ∧
    subsLookup ((ConnectionManager.init.connect 0 (some "u1")
        none).connect 0 (some "u2") (some "t2")).subscriptions 0 =
      some ⟨some "u2", some "t2"⟩ :=
  connect_overwrite ConnectionManager.init 0 (some "u1") none
    (some "u2") (some "t2") (by decide)

/-! ### Claim C9: the publish route -/

/-- A validated `NotificationCreateRequest` payload (the pydantic
validators have already accepted `type` and `channels`). -/
structure NotificationCreateRequest where
  userId : Option String
  topic : Option String
  orderId : Option String
  type : String
  title : String
  body : Option String
  data : Option (List (String × String))
  channels : Option (List String)
deriving DecidableEq, Repr

/-- The immutable `Notification` record created once per publish. -/
structure Notification where
  id : String
  userId : Option String
  orderId : Option String
  type : String
  title : String
  body : Option String
  data : Option (List (String × String))
  read : Bool
  createdAt : Nat
deriving DecidableEq, Repr

/-- The JSON body and status code `post_notification` returns:
`JSONResponse(status_code=202, content={"status": "accepted", "id": ...})`. -/
structure PostResponse where
  status_code : Nat
  status : String
  id : String
deriving DecidableEq, Repr

/-- The `post_notification` route handler: build the `Notification`
(`id=str(uuid.uuid4())`, `read` defaulted to `False`,
`createdAt=datetime.now(timezone.utc)` — the fresh id and clock reading
are passed in as `freshId` and `now`), turn it into the broadcast
message dict (adding a top-level `"topic"` key only under
`if payload.topic:`), broadcast it once, and return 202 accepted with
the notification id. The outputs are the new registry state, the
constructed notification, the broadcast message and the response. -/
def post_notification (payload : NotificationCreateRequest)
    (freshId : String) (now : Nat) (m : ConnectionManager)
    (fails : Socket → Bool) :
    ConnectionManager × Notification × Message × PostResponse :=
  let n : Notification :=
    { id := freshId, userId := payload.userId, orderId := payload.orderId,
      type := payload.type, title := payload.title, body := payload.body,
      data := payload.data, read := false, createdAt := now }
  let message : Message :=
    { id := n.id, userId := n.userId, orderId := n.orderId, type := n.type,
      title := n.title, body := n.body, data := n.data, read := n.read,
      createdAt := n.createdAt,
      topic := if truthy payload.topic then payload.topic else none }
  (m.broadcast message fails, n, message,
    ⟨202, "accepted", freshId⟩)

/-- C9 (counterexample to the claim as stated): a publish request that
supplies the empty string as its topic produces a broadcast message
with no top-level topic key, because the code adds the key only under
`if payload.topic:`. -/
theorem post_topic_claim_cex :
    (post_notification
        ⟨none, some "", none, "system", "hi", none, none, none⟩
        "nid" 0 ConnectionManager.init (fun _ => false)).2.2.1.topic
      = none ∧
    (⟨none, some "", none, "system", "hi", none, none, none⟩ :
        NotificationCreateRequest).topic.isSome = true := by
  constructor
  · rfl
  · rfl

/-- C9 (amended): for every valid publish request, `post_notification`
constructs exactly one Notification whose id is the freshly generated
id, whose `read` is false and whose `createdAt` is the current UTC
clock reading; broadcasts exactly once a message carrying exactly the
notification's fields plus a top-level topic exactly when the request
supplied a nonempty one; and returns 202 with
`{status: "accepted", id: <the notification id>}`. -/
theorem post_accepted (payload : NotificationCreateRequest)
    (freshId : String) (now : Nat) (m : ConnectionManager)
    (fails : Socket → Bool) :
    (post_notification payload freshId now m fails).2.1 =
      { id := freshId, userId := payload.userId,
        orderId := payload.orderId, type := payload.type,
        title := payload.title, body := payload.body,
        data := payload.data, read := false, createdAt := now } ∧
    ((post_notification payload freshId now m fails).2.2.1.id = freshId ∧
      (post_notification payload freshId now m fails).2.2.1.userId =
        payload.userId ∧
      (post_notification payload freshId now m fails).2.2.1.read = false ∧
      (post_notification payload freshId now m fails).2.2.1.createdAt =
        now) ∧
    (truthy payload.topic = true →
      (post_notification payload freshId now m fails).2.2.1.topic =
        payload.topic) ∧
    (truthy payload.topic = false →
      (post_notification payload freshId now m fails).2.2.1.topic =
        none) ∧
    (post_notification payload freshId now m fails).1 =
      m.broadcast (post_notification payload freshId now m fails).2.2.1
        fails ∧
    (post_notification payload freshId now m fails).2.2.2 =
      ⟨202, "accepted", freshId⟩ := by
  refine ⟨rfl, ⟨rfl, rfl, rfl, rfl⟩, ?_, ?_, rfl, rfl⟩
  · intro h
    simp [post_notification, h]
  · intro h
    simp [post_notification, h]

/-- C9 witness: a concrete publish request with a nonempty topic yields
the accepted response carrying the generated id, a broadcast message
with `read = false`, the supplied creation time, and the topic key. -/
theorem post_accepted_witness :
    (post_notification
        ⟨some "u1", some "orders", none, "order_update", "x", none,
          none, none⟩
        "nid1" 7 ConnectionManager.init (fun _ => false)).2.2.1.topic =
      some "orders" ∧
    (post_notification
        ⟨some "u1", some "orders", none, "order_update", "x", none,
          none, none⟩
        "nid1" 7 ConnectionManager.init (fun _ => false)).2.2.1.read =
      false ∧
    (post_notification
        ⟨some "u1", some "orders", none, "order_update", "x", none,
          none, none⟩
        "nid1" 7 ConnectionManager.init (fun _ => false)).2.2.2 =
      ⟨202, "accepted", "nid1"⟩ := by
  have h := post_accepted
    ⟨some "u1", some "orders", none, "order_update", "x", none, none, none⟩
    "nid1" 7 ConnectionManager.init (fun _ => false)
  exact ⟨h.2.2.1 (by decide), h.2.1.2.2.1, h.2.2.2.2.2⟩

/-! ### Claim C10: empty-string filters are wildcards -/

theorem mem_connect_active_self (m : ConnectionManager) (ws : Socket)
    (u t : Option String) :
    ws ∈ (m.connect ws u t).active_connections := by
  simp only [ConnectionManager.connect]
  by_cases hin : ws ∈ m.active_connections
  · simpa [if_pos hin] using hin
  · simp [if_neg hin]

/-- C10: an empty-string filter is treated as absent: a subscription
whose userIdFilter is `""` matches every envelope on the user
dimension, one whose topicFilter is `""` matches every envelope on the
topic dimension, and a client that connects with both filter parameters
equal to `""` is delivered every broadcast whose send to it succeeds,
exactly like an unfiltered subscriber. -/
theorem empty_filters_are_wildcards (msg : Message)
    (m : ConnectionManager) (ws : Socket) (fails : Socket → Bool)
    (hf : fails ws = false) :
    matches_user msg (some "") = true ∧
    matches_topic msg (some "") = true ∧
    ws ∈ ((m.connect ws (some "") (some "")).broadcastPass msg fails).1 := by
  refine ⟨by simp [matches_user, truthy], by simp [matches_topic, truthy],
    ?_⟩
  rw [broadcastPass_eq]
  rw [List.mem_filter]
  refine ⟨mem_connect_active_self m ws (some "") (some ""), ?_⟩
  have hsub : (m.connect ws (some "") (some "")).subOf ws =
      ⟨some "", some ""⟩ := by
    simp only [ConnectionManager.subOf, ConnectionManager.connect]
    rw [subsLookup_subsSet_self]
    rfl
  simp [hsub, matchesFilters, matches_user, matches_topic, truthy, hf]

/-- C10 witness: a client connected with `userId=""` and `topic=""`
receives a broadcast that targets a specific user and topic. -/
theorem empty_filters_are_wildcards_witness :
    3 ∈ ((ConnectionManager.init.connect 3 (some "") (some "")).broadcastPass
        ⟨"n1", some "u9", none, "promotion", "p", none,
          some [("topic", "promo")], false, 0, none⟩
        (fun _ => false)).1 :=
  (empty_filters_are_wildcards
    ⟨"n1", some "u9", none, "promotion", "p", none,
      some [("topic", "promo")], false, 0, none⟩
    ConnectionManager.init 3 (fun _ => false) (by decide)).2.2

end NotificationService
